import Mathlib

/-!
Shallow embedding of the Cosmic Scrapper clicker (src/new.py).

Python floats are modelled as exact rationals (ℚ), Python ints as ℕ/ℤ,
Python dicts as insertion-ordered association lists, and JSON records as
structures with `Option` fields (a `none` field models an absent key).
GUI calls (messageboxes, widget updates) are modelled as explicit outcome
values; wall-clock reads (`time.time()`) are explicit `now` parameters.
-/

namespace CosmicScrapper

/-- Python's `int(q)` on a number: truncation toward zero. -/
def pyInt (q : ℚ) : ℤ := if q < 0 then -⌊-q⌋ else ⌊q⌋

/-- Python `d.get(k, dflt)` on an association list. -/
def dictGet (l : List (String × α)) (k : String) (dflt : α) : α :=
  (l.lookup k).getD dflt

/-- Python `d[k] = v` on an association list: replace in place, else append. -/
def dictSet (k : String) (v : α) : List (String × α) → List (String × α)
  | [] => [(k, v)]
  | p :: rest => if p.1 = k then (k, v) :: rest else p :: dictSet k v rest

/-- `GameState.__init__` / mutable game-state fields of src/new.py. -/
structure GameState where
  scrap : ℚ
  scrap_per_click : ℚ
  scrap_per_second : ℚ
  upgrades : List (String × ℕ)
  tasks : List (String × String)
  station_progress : ℚ
  last_tick : ℚ
deriving DecidableEq

/-- `GameState()`: the defaults from `__init__`; `last_tick = time.time()` is
the explicit `now` parameter. -/
def GameState.init (now : ℚ) : GameState :=
  { scrap := 0, scrap_per_click := 1, scrap_per_second := 0,
    upgrades := [], tasks := [], station_progress := 0, last_tick := now }

/-- The `state` sub-record of the persisted JSON save; `none` models an
absent key. -/
structure StateDict where
  scrap : Option ℚ
  scrap_per_click : Option ℚ
  scrap_per_second : Option ℚ
  upgrades : Option (List (String × ℕ))
  tasks : Option (List (String × String))
  station_progress : Option ℚ
deriving DecidableEq

/-- The empty dict `{}` (every key absent). -/
def StateDict.empty : StateDict :=
  { scrap := none, scrap_per_click := none, scrap_per_second := none,
    upgrades := none, tasks := none, station_progress := none }

/-- `GameState.to_dict`: emits every field (so every key is present). -/
def GameState.to_dict (g : GameState) : StateDict :=
  { scrap := some g.scrap, scrap_per_click := some g.scrap_per_click,
    scrap_per_second := some g.scrap_per_second, upgrades := some g.upgrades,
    tasks := some g.tasks, station_progress := some g.station_progress }

/-- `GameState.from_dict`: `d.get(key, default)` for each field; `last_tick`
comes from `cls()` which reads the wall clock (`now`), never the record. -/
def GameState.from_dict (now : ℚ) (d : StateDict) : GameState :=
  { scrap := d.scrap.getD 0,
    scrap_per_click := d.scrap_per_click.getD 1,
    scrap_per_second := d.scrap_per_second.getD 0,
    upgrades := d.upgrades.getD [],
    tasks := d.tasks.getD [],
    station_progress := d.station_progress.getD 0,
    last_tick := now }

/-- `class Upgrade` of src/new.py. -/
structure Upgrade where
  id : String
  name : String
  base_cost : ℕ
  effect_type : String
  effect_value : ℚ
  description : String
deriving DecidableEq

/-- `Upgrade.cost(owned) = int(base_cost * 1.6 ** owned)`. -/
def Upgrade.cost (u : Upgrade) (owned : ℕ) : ℤ :=
  pyInt ((u.base_cost : ℚ) * (8 / 5) ^ owned)

/-- First catalog entry of `UPGRADE_DEFS`. -/
def laserTools : Upgrade :=
  { id := "laser_tools", name := "Лазерные клещи", base_cost := 10,
    effect_type := "click", effect_value := 1,
    description := "Увеличивает Scrap за клик." }

/-- Second catalog entry of `UPGRADE_DEFS`. -/
def magnetDrones : Upgrade :=
  { id := "magnet_drones", name := "Магнитные дроны", base_cost := 50,
    effect_type := "aps", effect_value := 1 / 2,
    description := "Добавляет автосборщик (Scrap в секунду)." }

/-- Third catalog entry of `UPGRADE_DEFS`. -/
def scrapRefinery : Upgrade :=
  { id := "scrap_refinery", name := "Переработчик", base_cost := 200,
    effect_type := "aps", effect_value := 2,
    description := "Ускоряет переработку мусора — больше APS." }

/-- Fourth catalog entry of `UPGRADE_DEFS`. -/
def reinforcedHull : Upgrade :=
  { id := "reinforced_hull", name := "Усиленный корпус", base_cost := 150,
    effect_type := "click", effect_value := 5,
    description := "Увеличивает прибыль с клика." }

/-- Fifth catalog entry of `UPGRADE_DEFS`. -/
def stationModule : Upgrade :=
  { id := "station_module", name := "Модуль станции", base_cost := 1000,
    effect_type := "progress", effect_value := 10,
    description := "Добавляет прогресс к строительству станции при покупке." }

/-- `UPGRADE_DEFS` static catalog. -/
def UPGRADE_DEFS : List Upgrade :=
  [laserTools, magnetDrones, scrapRefinery, reinforcedHull, stationModule]

/-- A `TASK_DEFS` tuple: `(id, description, (target type, target value), reward)`. -/
structure Task where
  id : String
  descr : String
  ttype : String
  tval : ℚ
  reward : ℤ
deriving DecidableEq

/-- First catalog entry of `TASK_DEFS`. -/
def collect100 : Task :=
  { id := "collect_100", descr := "Собрать 100 Scrap",
    ttype := "scrap_total", tval := 100, reward := 50 }

/-- Second catalog entry of `TASK_DEFS`. -/
def click50 : Task :=
  { id := "click_50", descr := "Сделать 50 кликов",
    ttype := "clicks", tval := 50, reward := 30 }

/-- Third catalog entry of `TASK_DEFS`. -/
def build25 : Task :=
  { id := "build_25", descr := "Достичь 25% прогресса станции",
    ttype := "station_progress", tval := 25, reward := 100 }

/-- `TASK_DEFS` static catalog. -/
def TASK_DEFS : List Task := [collect100, click50, build25]

/-- The app-level mutable data: `self.state` plus the session counters
`self.total_clicks` and `self.total_scrap_earned`. -/
structure AppState where
  state : GameState
  total_clicks : ℕ
  total_scrap_earned : ℚ
deriving DecidableEq

/-- A fresh app (`CosmicScrapperApp.__init__` with no save file). -/
def initApp (now : ℚ) : AppState :=
  { state := GameState.init now, total_clicks := 0, total_scrap_earned := 0 }

/-- `click_ship`: `scrap += scrap_per_click`; `total_clicks += 1`;
`total_scrap_earned += scrap_per_click`. -/
def click_ship (a : AppState) : AppState :=
  { a with
    state := { a.state with scrap := a.state.scrap + a.state.scrap_per_click },
    total_clicks := a.total_clicks + 1,
    total_scrap_earned := a.total_scrap_earned + a.state.scrap_per_click }

/-- Outcome of `buy_upgrade`: `insufficient` models the
"Недостаточно Scrap" messagebox (reporting the cost and the balance shown,
`int(self.state.scrap)`) followed by the early `return`. -/
inductive BuyOutcome where
  | insufficient (cost : ℤ) (balance : ℤ)
  | purchased
deriving DecidableEq

/-- `buy_upgrade`: reject when `scrap < cost`, else pay, increment the owned
count and apply the effect keyed on `effect_type`. -/
def buy_upgrade (u : Upgrade) (a : AppState) : BuyOutcome × AppState :=
  let owned := dictGet a.state.upgrades u.id 0
  let cost := u.cost owned
  if a.state.scrap < (cost : ℚ) then
    (.insufficient cost (pyInt a.state.scrap), a)
  else
    let st1 := { a.state with
                 scrap := a.state.scrap - (cost : ℚ),
                 upgrades := dictSet u.id (owned + 1) a.state.upgrades }
    let st2 :=
      if u.effect_type = "click" then
        { st1 with scrap_per_click := st1.scrap_per_click + u.effect_value }
      else if u.effect_type = "aps" then
        { st1 with scrap_per_second := st1.scrap_per_second + u.effect_value }
      else if u.effect_type = "progress" then
        { st1 with station_progress := min 100 (st1.station_progress + u.effect_value) }
      else st1
    (.purchased, { a with state := st2 })

/-- Outcome of `check_task`: `silentReturn` models the bare `return` (no
messagebox at all) on an unknown id, `rewarded` the "Задача выполнена"
messagebox, `notYet` the "Еще не готово" messagebox. -/
inductive CheckOutcome where
  | silentReturn
  | rewarded (reward : ℤ)
  | notYet
deriving DecidableEq

/-- `check_task`: find the def (silently return if absent), evaluate the
predicate against current state, and on success mark done and pay the
reward. Note: no already-done guard exists in the function. -/
def check_task (tid : String) (a : AppState) : CheckOutcome × AppState :=
  match TASK_DEFS.find? (fun t => t.id == tid) with
  | none => (.silentReturn, a)
  | some t =>
    let complete :=
      if t.ttype = "scrap_total" then
        a.total_scrap_earned ≥ t.tval ∨ a.state.scrap ≥ t.tval
      else if t.ttype = "clicks" then
        (a.total_clicks : ℚ) ≥ t.tval
      else if t.ttype = "station_progress" then
        a.state.station_progress ≥ t.tval
      else False
    if complete then
      (.rewarded t.reward,
       { a with state := { a.state with
                           tasks := dictSet t.id "done" a.state.tasks,
                           scrap := a.state.scrap + (t.reward : ℚ) } })
    else (.notYet, a)

/-- `game_tick` body (one invocation): read the clock (`now`), compute the
elapsed delta, accrue passive scrap, advance station progress, and pay the
station bonus with a reset when progress reaches 100. -/
def game_tick (now : ℚ) (a : AppState) : AppState :=
  let elapsed := now - a.state.last_tick
  let gain := a.state.scrap_per_second * elapsed
  let scrap1 := if gain ≠ 0 then a.state.scrap + gain else a.state.scrap
  let tse1 := if gain ≠ 0 then a.total_scrap_earned + gain
              else a.total_scrap_earned
  let progress_gain := gain / 500 * 1
  let p1 := if progress_gain ≠ 0 then
              min 100 (a.state.station_progress + progress_gain)
            else a.state.station_progress
  if p1 ≥ 100 then
    { a with
      state := { a.state with last_tick := now, scrap := scrap1 + 1000, station_progress := 0 },
      total_scrap_earned := tse1 }
  else
    { a with
      state := { a.state with last_tick := now, scrap := scrap1, station_progress := p1 },
      total_scrap_earned := tse1 }

/-- Persisted save record (`save_game`'s JSON object); `none` models an
absent key. -/
structure SaveDict where
  state : Option StateDict
  total_clicks : Option ℕ
  total_scrap_earned : Option ℚ
  saved_at : Option ℚ
deriving DecidableEq

/-- `save_game`: dump state and counters, stamped with the wall clock. -/
def save_game (now : ℚ) (a : AppState) : SaveDict :=
  { state := some a.state.to_dict,
    total_clicks := some a.total_clicks,
    total_scrap_earned := some a.total_scrap_earned,
    saved_at := some now }

/-- `load_game` (file-present, parse-success path): rebuild the state from
`data.get('state', {})` and the counters from their keys with defaults. -/
def load_game (now : ℚ) (d : SaveDict) : AppState :=
  { state := GameState.from_dict now (d.state.getD StateDict.empty),
    total_clicks := d.total_clicks.getD 0,
    total_scrap_earned := d.total_scrap_earned.getD 0 }

/-- States reachable from a fresh app through the game operations: clicks,
catalog purchases, task checks and clock ticks (the clock never runs
backwards). -/
inductive Reach : AppState → Prop where
  | init (t0 : ℚ) : Reach (initApp t0)
  | click {a : AppState} : Reach a → Reach (click_ship a)
  | buy {a : AppState} (u : Upgrade) (hu : u ∈ UPGRADE_DEFS) :
      Reach a → Reach (buy_upgrade u a).2
  | check {a : AppState} (tid : String) :
      Reach a → Reach (check_task tid a).2
  | tick {a : AppState} (now : ℚ) (h : a.state.last_tick ≤ now) :
      Reach a → Reach (game_tick now a)

/-! ### Helper lemmas -/

lemma pyInt_of_nonneg {q : ℚ} (h : 0 ≤ q) : pyInt q = ⌊q⌋ := by
  unfold pyInt
  rw [if_neg (not_lt.2 h)]

lemma pyInt_natCast (n : ℕ) : pyInt (n : ℚ) = n := by
  rw [pyInt_of_nonneg (by positivity)]
  exact_mod_cast Int.floor_natCast n

lemma cost_eq_floor (u : Upgrade) (n : ℕ) :
    u.cost n = ⌊(u.base_cost : ℚ) * (8 / 5) ^ n⌋ := by
  unfold Upgrade.cost
  exact pyInt_of_nonneg (by positivity)

lemma cost_zero (u : Upgrade) : u.cost 0 = u.base_cost := by
  unfold Upgrade.cost
  rw [pow_zero, mul_one, pyInt_natCast]

lemma cost_lt_succ (u : Upgrade) (hb : 2 ≤ u.base_cost) (n : ℕ) :
    u.cost n < u.cost (n + 1) := by
  rw [cost_eq_floor, cost_eq_floor]
  have hb' : (2 : ℚ) ≤ (u.base_cost : ℚ) := by exact_mod_cast hb
  have hpow : (1 : ℚ) ≤ (8 / 5) ^ n := one_le_pow₀ (by norm_num)
  have h2 : (2 : ℚ) ≤ (u.base_cost : ℚ) * (8 / 5) ^ n := by nlinarith
  have key : (u.base_cost : ℚ) * (8 / 5) ^ n + 1 ≤
      (u.base_cost : ℚ) * (8 / 5) ^ (n + 1) := by
    rw [pow_succ]
    nlinarith
  calc ⌊(u.base_cost : ℚ) * (8 / 5) ^ n⌋
      < ⌊(u.base_cost : ℚ) * (8 / 5) ^ n⌋ + 1 := lt_add_one _
    _ = ⌊(u.base_cost : ℚ) * (8 / 5) ^ n + 1⌋ := (Int.floor_add_one _).symm
    _ ≤ ⌊(u.base_cost : ℚ) * (8 / 5) ^ (n + 1)⌋ := Int.floor_le_floor key

lemma dictGet_dictSet (k : String) (v : α) (l : List (String × α)) (d : α) :
    dictGet (dictSet k v l) k d = v := by
  induction l with
  | nil => simp [dictGet, dictSet]
  | cons p rest ih =>
    obtain ⟨k', v'⟩ := p
    by_cases h : k' = k
    · subst h
      simp [dictSet, dictGet]
    · have hbe : (k == k') = false := beq_eq_false_iff_ne.2 (Ne.symm h)
      simpa [dictSet, h, dictGet, List.lookup, hbe] using ih

lemma buy_sufficient (u : Upgrade) (a : AppState)
    (h : (u.cost (dictGet a.state.upgrades u.id 0) : ℚ) ≤ a.state.scrap) :
    buy_upgrade u a =
      (.purchased,
        { a with state :=
          (if u.effect_type = "click" then
            { a.state with
              scrap := a.state.scrap - (u.cost (dictGet a.state.upgrades u.id 0) : ℚ),
              upgrades := dictSet u.id (dictGet a.state.upgrades u.id 0 + 1) a.state.upgrades,
              scrap_per_click := a.state.scrap_per_click + u.effect_value }
          else if u.effect_type = "aps" then
            { a.state with
              scrap := a.state.scrap - (u.cost (dictGet a.state.upgrades u.id 0) : ℚ),
              upgrades := dictSet u.id (dictGet a.state.upgrades u.id 0 + 1) a.state.upgrades,
              scrap_per_second := a.state.scrap_per_second + u.effect_value }
          else if u.effect_type = "progress" then
            { a.state with
              scrap := a.state.scrap - (u.cost (dictGet a.state.upgrades u.id 0) : ℚ),
              upgrades := dictSet u.id (dictGet a.state.upgrades u.id 0 + 1) a.state.upgrades,
              station_progress := min 100 (a.state.station_progress + u.effect_value) }
          else
            { a.state with
              scrap := a.state.scrap - (u.cost (dictGet a.state.upgrades u.id 0) : ℚ),
              upgrades := dictSet u.id (dictGet a.state.upgrades u.id 0 + 1) a.state.upgrades }) }) := by
  unfold buy_upgrade
  rw [if_neg (not_lt.2 h)]

lemma find_task_none {tid : String} (h : ∀ t ∈ TASK_DEFS, t.id ≠ tid) :
    TASK_DEFS.find? (fun t => t.id == tid) = none := by
  rw [List.find?_eq_none]
  intro t ht
  simpa using h t ht

lemma click_iterate (t0 : ℚ) (n : ℕ) :
    click_ship^[n] (initApp t0) =
      { state := { scrap := n, scrap_per_click := 1, scrap_per_second := 0,
                   upgrades := [], tasks := [], station_progress := 0, last_tick := t0 },
        total_clicks := n, total_scrap_earned := n } := by
  induction n with
  | zero => simp [initApp, GameState.init]
  | succ k ih =>
    rw [Function.iterate_succ_apply', ih]
    simp [click_ship, AppState.mk.injEq, GameState.mk.injEq]

/-! ### Claim theorems -/

/-- C4: for every upgrade definition and every owned count `n ≥ 0`,
`cost(definition, n) = floor(baseCost * 1.6 ^ n)` (truncation toward zero
agrees with floor here), and `cost(definition, 0) = baseCost`; `cost` is a
pure Lean function, hence deterministic and side-effect free. -/
theorem claim_C4 (u : Upgrade) (n : ℕ) :
    u.cost n = ⌊(u.base_cost : ℚ) * (8 / 5) ^ n⌋ ∧ u.cost 0 = u.base_cost :=
  ⟨cost_eq_floor u n, cost_zero u⟩

/-- C5: for every upgrade in the static catalog and every owned count
`n ≥ 0`, the post-floor price strictly increases: `cost(u, n) < cost(u, n+1)`. -/
theorem claim_C5 (u : Upgrade) (hu : u ∈ UPGRADE_DEFS) (n : ℕ) :
    u.cost n < u.cost (n + 1) := by
  refine cost_lt_succ u ?_ n
  fin_cases hu <;> decide

/-- Witness for C5 at the first catalog entry and `n = 0`:
`cost(laser_tools, 0) = 10 < 16 = cost(laser_tools, 1)`. -/
theorem claim_C5_witness : laserTools.cost 0 < laserTools.cost 1 :=
  claim_C5 laserTools (by simp [UPGRADE_DEFS]) 0

/-- C2: for every catalog upgrade, a purchase with `scrap ≥ cost` pays
exactly the cost, increments the owned count for that id (absent entries
count as 0), applies exactly the one effect selected by the upgrade's kind
(`click` → `scrap_per_click`, `aps` → `scrap_per_second`, `progress` →
`station_progress` capped at 100), and changes no other state field or
counter (the resulting record keeps every other field of the input). -/
theorem claim_C2 (u : Upgrade) (a : AppState) (hu : u ∈ UPGRADE_DEFS)
    (h : (u.cost (dictGet a.state.upgrades u.id 0) : ℚ) ≤ a.state.scrap) :
    buy_upgrade u a =
      (.purchased,
        { a with state :=
          { a.state with
            scrap := a.state.scrap - (u.cost (dictGet a.state.upgrades u.id 0) : ℚ),
            upgrades := dictSet u.id (dictGet a.state.upgrades u.id 0 + 1) a.state.upgrades,
            scrap_per_click := if u.effect_type = "click" then a.state.scrap_per_click + u.effect_value else a.state.scrap_per_click,
            scrap_per_second := if u.effect_type = "aps" then a.state.scrap_per_second + u.effect_value else a.state.scrap_per_second,
            station_progress := if u.effect_type = "progress" then min 100 (a.state.station_progress + u.effect_value) else a.state.station_progress } }) ∧
    dictGet (buy_upgrade u a).2.state.upgrades u.id 0 = dictGet a.state.upgrades u.id 0 + 1 := by
  have h1 : buy_upgrade u a =
      (.purchased,
        { a with state :=
          { a.state with
            scrap := a.state.scrap - (u.cost (dictGet a.state.upgrades u.id 0) : ℚ),
            upgrades := dictSet u.id (dictGet a.state.upgrades u.id 0 + 1) a.state.upgrades,
            scrap_per_click := if u.effect_type = "click" then a.state.scrap_per_click + u.effect_value else a.state.scrap_per_click,
            scrap_per_second := if u.effect_type = "aps" then a.state.scrap_per_second + u.effect_value else a.state.scrap_per_second,
            station_progress := if u.effect_type = "progress" then min 100 (a.state.station_progress + u.effect_value) else a.state.station_progress } }) := by
    rw [buy_sufficient u a h]
    fin_cases hu <;>
      simp [laserTools, magnetDrones, scrapRefinery, reinforcedHull, stationModule]
  refine ⟨h1, ?_⟩
  rw [h1]
  exact dictGet_dictSet _ _ _ _

/-- A concrete state with exactly 10 scrap, used as the C2 witness input. -/
def a10 : AppState :=
  { state := { scrap := 10, scrap_per_click := 1, scrap_per_second := 0,
               upgrades := [], tasks := [], station_progress := 0, last_tick := 0 },
    total_clicks := 0, total_scrap_earned := 0 }

/-- Witness for C2: buying `laser_tools` (cost 10) with 10 scrap succeeds,
leaves 0 scrap, raises `scrap_per_click` to 2 and records 1 owned. -/
theorem claim_C2_witness :
    (buy_upgrade laserTools a10).1 = .purchased ∧
    (buy_upgrade laserTools a10).2.state.scrap = 0 ∧
    (buy_upgrade laserTools a10).2.state.scrap_per_click = 2 ∧
    dictGet (buy_upgrade laserTools a10).2.state.upgrades "laser_tools" 0 = 1 := by
  have h := claim_C2 laserTools a10 (by simp [UPGRADE_DEFS])
    (by rw [show dictGet a10.state.upgrades laserTools.id 0 = 0 from rfl, cost_zero]
        norm_num [a10, laserTools])
  refine ⟨by rw [h.1], ?_, ?_, ?_⟩
  · rw [h.1]
    rw [show dictGet a10.state.upgrades laserTools.id 0 = 0 from rfl, cost_zero]
    norm_num [a10, laserTools]
  · rw [h.1]
    norm_num [a10, laserTools]
  · have h2 := h.2
    rwa [show dictGet a10.state.upgrades laserTools.id 0 = 0 from rfl] at h2

/-- C3: for every catalog upgrade, a purchase with `scrap < cost` fails with
the insufficient-funds report (carrying the required cost and the displayed
balance `int(scrap)`) and returns the input state unchanged — an atomic
rejection with no mutation of any field or counter. -/
theorem claim_C3 (u : Upgrade) (a : AppState) (_hu : u ∈ UPGRADE_DEFS)
    (h : a.state.scrap < (u.cost (dictGet a.state.upgrades u.id 0) : ℚ)) :
    buy_upgrade u a =
      (.insufficient (u.cost (dictGet a.state.upgrades u.id 0)) (pyInt a.state.scrap), a) := by
  unfold buy_upgrade
  rw [if_pos h]

/-- Witness for C3: buying `laser_tools` (cost 10) from a fresh state with 0
scrap is rejected, reporting cost 10 and balance 0, with the state unchanged. -/
theorem claim_C3_witness :
    buy_upgrade laserTools (initApp 0) = (.insufficient 10 0, initApp 0) := by
  have h := claim_C3 laserTools (initApp 0) (by simp [UPGRADE_DEFS])
    (by rw [show dictGet (initApp 0).state.upgrades laserTools.id 0 = 0 from rfl, cost_zero]
        norm_num [initApp, GameState.init, laserTools])
  rw [h, show dictGet (initApp 0).state.upgrades laserTools.id 0 = 0 from rfl, cost_zero]
  norm_num [laserTools, initApp, GameState.init, pyInt]

/-- The tick update exactly as the spec's words describe it (step 1: add
`gain = scrapPerSecond * elapsed` to scrap and totalScrapEarned when
`gain > 0`; step 2: add `gain / 500` to stationProgress, capped at 100, when
positive; step 3: on `stationProgress ≥ 100` add the 1000 bonus and reset to
0), for comparison with the code's `game_tick`. -/
def tickSpec (elapsed : ℚ) (a : AppState) : AppState :=
  let gain := a.state.scrap_per_second * elapsed
  let scrap1 := if 0 < gain then a.state.scrap + gain else a.state.scrap
  let tse1 := if 0 < gain then a.total_scrap_earned + gain else a.total_scrap_earned
  let progressGain := gain / 500
  let p1 := if 0 < progressGain then min 100 (a.state.station_progress + progressGain)
            else a.state.station_progress
  if p1 ≥ 100 then
    { a with
      state := { a.state with last_tick := a.state.last_tick + elapsed, scrap := scrap1 + 1000, station_progress := 0 },
      total_scrap_earned := tse1 }
  else
    { a with
      state := { a.state with last_tick := a.state.last_tick + elapsed, scrap := scrap1, station_progress := p1 },
      total_scrap_earned := tse1 }

/-- A state with `station_progress = 99.96`, `scrap_per_second = 2.0` and no
scrap yet — the spec's station-completion scenario input. -/
def app996 : AppState :=
  { state := { scrap := 0, scrap_per_click := 1, scrap_per_second := 2,
               upgrades := [], tasks := [], station_progress := 2499 / 25, last_tick := 0 },
    total_clicks := 0, total_scrap_earned := 0 }

/-- C1: for every state (with the documented non-negative passive rate) and
every `elapsed ≥ 0`, one `game_tick` call performs exactly the spec's
ordered steps (`tickSpec`): accrue `gain` into scrap and totalScrapEarned
when positive, then add `gain/500` to stationProgress capped at 100, then
award at most one 1000 bonus and reset when progress reaches 100; and in
the concrete scenario (progress 99.96, rate 2.0, elapsed 10) scrap gains
20 plus the 1000 bonus and progress resets to 0. -/
theorem claim_C1 :
    (∀ (a : AppState) (e : ℚ), 0 ≤ e → 0 ≤ a.state.scrap_per_second →
      game_tick (a.state.last_tick + e) a = tickSpec e a) ∧
    game_tick 10 app996 =
      { state := { scrap := 1020, scrap_per_click := 1, scrap_per_second := 2,
                   upgrades := [], tasks := [], station_progress := 0, last_tick := 10 },
        total_clicks := 0, total_scrap_earned := 20 } := by
  constructor
  · intro a e he hs
    have hgain : 0 ≤ a.state.scrap_per_second * e := mul_nonneg hs he
    simp only [game_tick, tickSpec, add_sub_cancel_left]
    by_cases hg : a.state.scrap_per_second * e = 0
    · simp [hg]
    · have hpos : 0 < a.state.scrap_per_second * e := lt_of_le_of_ne hgain (Ne.symm hg)
      have hpg : 0 < a.state.scrap_per_second * e / 500 := by positivity
      simp [hg, hpos, hpg, ne_of_gt hpg, mul_one]
  · norm_num [game_tick, app996, min_def]

/-- Witness for C1 on a fresh app and `elapsed = 2`. -/
theorem claim_C1_witness :
    game_tick ((initApp 3).state.last_tick + 2) (initApp 3) = tickSpec 2 (initApp 3) :=
  claim_C1.1 (initApp 3) 2 (by norm_num) (by norm_num [initApp, GameState.init])

/-- C9 counterexample: `check_task` on the unknown id "warp_drive" returns
silently — the bare-`return` outcome, no report of any kind — and leaves the
state unchanged, contradicting the claim that an UnknownId error is
signaled. -/
theorem claim_C9_counterexample :
    check_task "warp_drive" (initApp 0) = (.silentReturn, initApp 0) := by
  rfl

/-- C9 (amended): `check_task` invoked with a task id that does not exist in
the task catalog returns silently, with no state change and no report (no
messagebox is shown and no error is signaled). -/
theorem claim_C9 (tid : String) (a : AppState) (h : ∀ t ∈ TASK_DEFS, t.id ≠ tid) :
    check_task tid a = (.silentReturn, a) := by
  unfold check_task
  rw [find_task_none h]

/-- Witness for C9 at the unknown id "warp_drive" on a fresh state. -/
theorem claim_C9_witness :
    check_task "warp_drive" (initApp 1) = (.silentReturn, initApp 1) :=
  claim_C9 "warp_drive" (initApp 1) (by decide)

/-- The state after 100 clicks from a fresh app followed by one successful
check of `collect_100` (task now `done`, reward 50 paid, scrap 150). -/
def c7_once : AppState := (check_task "collect_100" (click_ship^[100] (initApp 0))).2

lemma c7_once_eq :
    c7_once =
      { state := { scrap := 150, scrap_per_click := 1, scrap_per_second := 0,
                   upgrades := [], tasks := [("collect_100", "done")],
                   station_progress := 0, last_tick := 0 },
        total_clicks := 100, total_scrap_earned := 100 } := by
  unfold c7_once
  rw [click_iterate]
  norm_num [check_task, TASK_DEFS, collect100, click50, build25, dictSet]

/-- C7 is a code bug: in the reachable state `c7_once` the task
`collect_100` is already `done` (first conjuncts), yet a second
`check_task("collect_100")` is not a no-op — the function has no
already-done guard, so it re-evaluates the predicate (still satisfied,
`total_scrap_earned = 100 ≥ 100`), reports success again and pays the 50
reward a second time, raising scrap from 150 to 200. -/
theorem claim_C7 :
    c7_once.state.scrap = 150 ∧
    dictGet c7_once.state.tasks "collect_100" "incomplete" = "done" ∧
    (check_task "collect_100" c7_once).1 = .rewarded 50 ∧
    (check_task "collect_100" c7_once).2.state.scrap = 200 := by
  rw [c7_once_eq]
  norm_num [check_task, TASK_DEFS, collect100, click50, build25, dictGet, dictSet, List.lookup]

/-- C8: for every (state, counters) pair — reachable ones included — loading
the record produced by save yields a pair field-for-field equal to the
original: scrap, scrap_per_click, scrap_per_second, upgrades, tasks,
station_progress, total_clicks and total_scrap_earned all round-trip
exactly (only the non-persisted `last_tick` is freshly set to the load-time
clock); save emits every key, so no default substitution occurs. -/
theorem claim_C8 (now now2 : ℚ) (a : AppState) :
    load_game now2 (save_game now a) =
      { a with state := { a.state with last_tick := now2 } } := by
  rfl

/-- A record whose values violate the documented invariants (negative scrap,
negative rate, `station_progress ≥ 100`). -/
def badDict : StateDict :=
  { scrap := some (-5), scrap_per_click := some 0, scrap_per_second := some (-1),
    upgrades := some [("laser_tools", 3)], tasks := some [("collect_100", "done")],
    station_progress := some 150 }

/-- C10: `from_dict` performs no validation — every present key's value is
taken verbatim (even invariant-violating values such as `scrap = -5` or
`station_progress = 150`), every absent key gets the documented default
(0, 1, 0, empty, empty, 0), and `last_tick` is always the current clock,
never read from the record. -/
theorem claim_C10 :
    (∀ (now : ℚ) (d : StateDict), (GameState.from_dict now d).last_tick = now) ∧
    (∀ (now : ℚ) (d : StateDict),
      GameState.from_dict now d =
        { scrap := d.scrap.getD 0, scrap_per_click := d.scrap_per_click.getD 1,
          scrap_per_second := d.scrap_per_second.getD 0,
          upgrades := d.upgrades.getD [], tasks := d.tasks.getD [],
          station_progress := d.station_progress.getD 0, last_tick := now }) ∧
    (∀ (now : ℚ) (v : ℚ) (d : StateDict), d.scrap = some v →
      (GameState.from_dict now d).scrap = v) ∧
    (∀ (now : ℚ) (d : StateDict), d.scrap = none →
      (GameState.from_dict now d).scrap = 0) ∧
    GameState.from_dict 0 StateDict.empty = GameState.init 0 ∧
    (GameState.from_dict 0 badDict).scrap = -5 ∧
    (GameState.from_dict 0 badDict).station_progress = 150 ∧
    (GameState.from_dict 0 badDict).scrap_per_second = -1 := by
  refine ⟨fun now d => rfl, fun now d => rfl, ?_, ?_, rfl, rfl, rfl, rfl⟩
  · intro now v d h
    simp [GameState.from_dict, h]
  · intro now d h
    simp [GameState.from_dict, h]

/-- Witness for C10 on the invariant-violating record loaded at clock 7. -/
theorem claim_C10_witness :
    (GameState.from_dict 7 badDict).scrap = -5 ∧
    (GameState.from_dict 7 badDict).last_tick = 7 := by
  refine ⟨claim_C10.2.2.1 7 (-5) badDict rfl, claim_C10.1 7 badDict⟩

lemma check_task_sps (tid : String) (a : AppState) :
    (check_task tid a).2.state.scrap_per_second = a.state.scrap_per_second := by
  unfold check_task
  cases hf : TASK_DEFS.find? (fun t => t.id == tid) with
  | none => rfl
  | some t =>
    dsimp only
    split_ifs <;> rfl

lemma check_task_station (tid : String) (a : AppState) :
    (check_task tid a).2.state.station_progress = a.state.station_progress := by
  unfold check_task
  cases hf : TASK_DEFS.find? (fun t => t.id == tid) with
  | none => rfl
  | some t =>
    dsimp only
    split_ifs <;> rfl

lemma buy_preserves_inv (u : Upgrade) (hev : 0 ≤ u.effect_value) (a : AppState)
    (h : 0 ≤ a.state.scrap_per_second ∧ 0 ≤ a.state.station_progress ∧
         a.state.station_progress ≤ 100) :
    0 ≤ (buy_upgrade u a).2.state.scrap_per_second ∧
    0 ≤ (buy_upgrade u a).2.state.station_progress ∧
    (buy_upgrade u a).2.state.station_progress ≤ 100 := by
  obtain ⟨h1, h2, h3⟩ := h
  unfold buy_upgrade
  dsimp only
  split_ifs <;> dsimp only
  · exact ⟨h1, h2, h3⟩
  · exact ⟨h1, h2, h3⟩
  · exact ⟨by linarith, h2, h3⟩
  · exact ⟨h1, le_min (by norm_num) (by linarith), min_le_left _ _⟩
  · exact ⟨h1, h2, h3⟩

lemma tick_preserves_inv (now : ℚ) (a : AppState) (hnow : a.state.last_tick ≤ now)
    (h : 0 ≤ a.state.scrap_per_second ∧ 0 ≤ a.state.station_progress ∧
         a.state.station_progress ≤ 100) :
    0 ≤ (game_tick now a).state.scrap_per_second ∧
    0 ≤ (game_tick now a).state.station_progress ∧
    (game_tick now a).state.station_progress ≤ 100 := by
  obtain ⟨h1, h2, h3⟩ := h
  have he : 0 ≤ now - a.state.last_tick := sub_nonneg.2 hnow
  have hg : 0 ≤ a.state.scrap_per_second * (now - a.state.last_tick) := mul_nonneg h1 he
  have hpg : 0 ≤ a.state.scrap_per_second * (now - a.state.last_tick) / 500 * 1 := by positivity
  simp only [game_tick]
  split_ifs <;> dsimp only <;>
    refine ⟨h1, ?_, ?_⟩ <;>
    first
      | exact le_min (by norm_num) (by linarith)
      | exact min_le_left _ _
      | exact h2
      | exact h3
      | exact (by norm_num)

lemma reach_inv {a : AppState} (h : Reach a) :
    0 ≤ a.state.scrap_per_second ∧ 0 ≤ a.state.station_progress ∧
    a.state.station_progress ≤ 100 := by
  induction h with
  | init t0 => norm_num [initApp, GameState.init]
  | click _ ih => simpa [click_ship] using ih
  | buy u hu _ ih =>
    refine buy_preserves_inv u ?_ _ ih
    fin_cases hu <;> norm_num [laserTools, magnetDrones, scrapRefinery, reinforcedHull, stationModule]
  | check tid _ ih =>
    rw [check_task_sps, check_task_station]
    exact ih
  | tick now hle _ ih => exact tick_preserves_inv now _ hle ih

lemma tick_station_lt (now : ℚ) (a : AppState) :
    (game_tick now a).state.station_progress < 100 := by
  simp only [game_tick]
  split_ifs <;> dsimp only <;>
    simp only [ge_iff_le, not_le, mul_one] at * <;>
    first | assumption | norm_num

/-- The state after 50 clicks from a fresh app and a purchase of
`magnet_drones` (cost 50): no scrap left, passive rate 0.5/s. -/
def c6_mid : AppState := (buy_upgrade magnetDrones (click_ship^[50] (initApp 0))).2

lemma c6_mid_eq :
    c6_mid =
      { state := { scrap := 0, scrap_per_click := 1, scrap_per_second := 1 / 2,
                   upgrades := [("magnet_drones", 1)], tasks := [],
                   station_progress := 0, last_tick := 0 },
        total_clicks := 50, total_scrap_earned := 50 } := by
  unfold c6_mid
  rw [click_iterate]
  simp [buy_upgrade, dictGet, dictSet, magnetDrones, Upgrade.cost, pyInt, List.lookup]
  norm_num

/-- `c6_mid` after one tick worth 95000 seconds: 47500 scrap accrued,
station progress at 95 (no completion fired). -/
def c6_tick : AppState := game_tick 95000 c6_mid

lemma c6_tick_eq :
    c6_tick =
      { state := { scrap := 47500, scrap_per_click := 1, scrap_per_second := 1 / 2,
                   upgrades := [("magnet_drones", 1)], tasks := [],
                   station_progress := 95, last_tick := 95000 },
        total_clicks := 50, total_scrap_earned := 47550 } := by
  unfold c6_tick
  rw [c6_mid_eq]
  norm_num [game_tick, min_def]

/-- `c6_tick` after buying `station_module` (cost 1000, progress +10):
station progress is capped at exactly 100 and no completion fires. -/
def c6_final : AppState := (buy_upgrade stationModule c6_tick).2

lemma c6_final_eq : c6_final.state.station_progress = 100 := by
  unfold c6_final
  rw [c6_tick_eq]
  simp [buy_upgrade, dictGet, dictSet, stationModule, Upgrade.cost, pyInt, List.lookup]
  norm_num [min_def]

lemma reach_click_iter (n : ℕ) (a : AppState) (h : Reach a) :
    Reach (click_ship^[n] a) := by
  induction n with
  | zero => exact h
  | succ k ih =>
    rw [Function.iterate_succ_apply']
    exact Reach.click ih

/-- C6 counterexample: the state `c6_final` is reachable from a fresh app
(50 clicks, buy `magnet_drones`, one 95000-second tick, buy
`station_module`) yet its `station_progress` is exactly 100 — the
`progress`-kind purchase capped it at 100 without firing the completion
event or resetting, so the claimed `[0, 100)` invariant is false. -/
theorem claim_C6_counterexample :
    Reach c6_final ∧ ¬ c6_final.state.station_progress < 100 := by
  have h1 : Reach c6_mid :=
    Reach.buy magnetDrones (by simp [UPGRADE_DEFS])
      (reach_click_iter 50 _ (Reach.init 0))
  have h2 : Reach c6_tick :=
    Reach.tick 95000 (by rw [c6_mid_eq]; norm_num) h1
  have h3 : Reach c6_final :=
    Reach.buy stationModule (by simp [UPGRADE_DEFS]) h2
  exact ⟨h3, by rw [c6_final_eq]; norm_num⟩

/-- C6 (amended): after every operation reachable from the initial state,
`station_progress` lies in the closed interval `[0, 100]`; the tick path
always leaves it strictly below 100 (it resets on reaching 100 in the same
update), but a `progress`-kind purchase can leave it at exactly 100 without
firing the completion event, until the next tick. -/
theorem claim_C6 :
    (∀ a : AppState, Reach a →
      0 ≤ a.state.station_progress ∧ a.state.station_progress ≤ 100) ∧
    (∀ (now : ℚ) (a : AppState), (game_tick now a).state.station_progress < 100) :=
  ⟨fun _ h => (reach_inv h).2, fun now a => tick_station_lt now a⟩

/-- Witness for C6 on the fresh app and a zero-length tick. -/
theorem claim_C6_witness :
    (0 ≤ (initApp 0).state.station_progress ∧ (initApp 0).state.station_progress ≤ 100) ∧
    (game_tick 0 (initApp 0)).state.station_progress < 100 :=
  ⟨claim_C6.1 (initApp 0) (Reach.init 0), claim_C6.2 0 (initApp 0)⟩

end CosmicScrapper
